import Mathlib

/-!
Verification of the paginated query and type-projection layer of the
slint_duckdb_viewer repository (src/loader.rs, src/utils.rs, src/model.rs).

The Rust sources are shallowly embedded:
* pure string manipulation is modelled on `List Char` / `String`
  (Rust `str::to_lowercase`, `rsplit`, `split`, `trim` and `replace` are used in
  the source only with ASCII single-character patterns, and the models below
  reproduce exactly that behaviour);
* Rust `i64`/`i32` division and remainder (which truncate toward zero) are
  `Int.tdiv` / `Int.tmod`; `as u32` casts are `Int.emod · 4294967296`;
* the chrono calendar functions used by src/utils.rs (`NaiveDate` addition,
  `DateTime::from_timestamp`, `NaiveTime::from_num_seconds_from_midnight_opt`
  and the `%Y-%m-%dT%H:%M:%S.%3f/%6f/%9f%:z` style formatting) are modelled
  with the standard proleptic-Gregorian civil-from-days algorithm, which is
  the algorithm chrono itself uses, together with chrono's documented year
  range -262144..=262143; a chrono panic (out-of-range `NaiveDate + Duration`)
  is modelled as `none`;
* the DuckDB engine session is modelled as an oracle (`Db`) that answers
  `prepare` with per-statement metadata and row streams; `fetch_data` is the
  literal control flow of `loader.rs::fetch_data` over that oracle, and it
  additionally records the ordered trace of session events (open, timer
  start/stop, per-statement prepare/execute, metadata read, row drain) so that
  ordering and timing-scope properties become statements about the trace.
-/

namespace Viewer

/-! ## Small string helpers (decimal rendering used by chrono formatting) -/

/-- Zero-padded decimal rendering of the `w` low decimal digits of `n`;
for `n < 10 ^ w` this is `n` zero-padded to exactly `w` digits, which is what
chrono's numeric format specifiers produce for the in-range field values. -/
def nat_pad : Nat → Nat → String
  | 0, _ => ""
  | w + 1, n => nat_pad w (n / 10) ++ toString (n % 10)

/-- chrono's `%Y`: years 0..=9999 zero-padded to 4 digits, years outside that
range printed with an explicit `+`/`-` sign. -/
def year_str (y : Int) : String :=
  if y < 0 then
    if -y ≤ 9999 then "-" ++ nat_pad 4 (-y).toNat else "-" ++ toString (-y).toNat
  else
    if y ≤ 9999 then nat_pad 4 y.toNat else "+" ++ toString y.toNat

/-! ## Proleptic Gregorian calendar (the arithmetic behind chrono) -/

/-- Civil date from days since 1970-01-01 (the standard era-based algorithm,
as used by chrono's internal date representation). Returns (year, month, day). -/
def civil_from_days (z0 : Int) : Int × Int × Int :=
  let z := z0 + 719468
  let era := Int.fdiv z 146097
  let doe := z - era * 146097
  let yoe := Int.ediv (doe - Int.ediv doe 1460 + Int.ediv doe 36524 - Int.ediv doe 146096) 365
  let y := yoe + era * 400
  let doy := doe - (365 * yoe + Int.ediv yoe 4 - Int.ediv yoe 100)
  let mp := Int.ediv (5 * doy + 2) 153
  let d := doy - Int.ediv (153 * mp + 2) 5 + 1
  let m := mp + (if mp < 10 then 3 else -9)
  (y + (if m ≤ 2 then 1 else 0), m, d)

/-- Days since 1970-01-01 of a civil date (inverse of `civil_from_days`). -/
def days_from_civil (y0 m d : Int) : Int :=
  let y := y0 - (if m ≤ 2 then 1 else 0)
  let era := Int.fdiv y 400
  let yoe := y - era * 400
  let doy := Int.ediv (153 * (m + (if m > 2 then -3 else 9)) + 2) 5 + d - 1
  let doe := yoe * 365 + Int.ediv yoe 4 - Int.ediv yoe 100 + doy
  era * 146097 + doe - 719468

/-- First day representable by chrono's `NaiveDate` (year -262144, i.e. 262145 BCE). -/
def chrono_min_days : Int := days_from_civil (-262144) 1 1

/-- Last day representable by chrono's `NaiveDate` (December 31, 262143 CE). -/
def chrono_max_days : Int := days_from_civil 262143 12 31

structure DateTimeParts where
  year : Int
  month : Nat
  day : Nat
  hour : Nat
  minute : Nat
  second : Nat
  nano : Nat
deriving DecidableEq

structure TimeParts where
  hour : Nat
  minute : Nat
  second : Nat
  nano : Nat
deriving DecidableEq

/-- chrono `DateTime::from_timestamp(secs, nsecs)` (UTC): `none` when the
nanosecond argument is not below 2_000_000_000 or the resulting date falls
outside chrono's representable range. -/
def chrono_from_timestamp (secs : Int) (nsecs : Nat) : Option DateTimeParts :=
  if nsecs ≥ 2000000000 then none
  else
    let days := Int.fdiv secs 86400
    if chrono_min_days ≤ days ∧ days ≤ chrono_max_days then
      let sod := (Int.fmod secs 86400).toNat
      let ymd := civil_from_days days
      some ⟨ymd.1, ymd.2.1.toNat, ymd.2.2.toNat, sod / 3600, sod / 60 % 60, sod % 60, nsecs⟩
    else none

/-- chrono `NaiveTime::from_num_seconds_from_midnight_opt`: `none` when the
seconds argument reaches 86400 or the nanosecond argument reaches 2_000_000_000. -/
def chrono_time_from (secs nano : Nat) : Option TimeParts :=
  if secs < 86400 ∧ nano < 2000000000 then
    some ⟨secs / 3600, secs / 60 % 60, secs % 60, nano⟩
  else none

/-- The `.%3f` / `.%6f` / `.%9f` fractional part (none for no fraction):
the nanosecond field scaled down to the requested width and zero-padded. -/
def frac_str : Option Nat → Nat → String
  | none, _ => ""
  | some w, nano => "." ++ nat_pad w (nano / 10 ^ (9 - w))

/-- chrono `%Y-%m-%d`. -/
def render_date (y : Int) (m d : Nat) : String :=
  year_str y ++ "-" ++ nat_pad 2 m ++ "-" ++ nat_pad 2 d

/-- chrono `%Y-%m-%dT%H:%M:%S` plus optional fraction (no zone suffix). -/
def render_ymd_hms_body (dt : DateTimeParts) (w : Option Nat) : String :=
  render_date dt.year dt.month dt.day ++ "T" ++ nat_pad 2 dt.hour ++ ":" ++
    nat_pad 2 dt.minute ++ ":" ++ nat_pad 2 dt.second ++ frac_str w dt.nano

/-- chrono `%Y-%m-%dT%H:%M:%S[.frac]%:z` for a UTC datetime: the zone always
renders as the fixed explicit offset `+00:00`. -/
def render_ymd_hms (dt : DateTimeParts) (w : Option Nat) : String :=
  render_ymd_hms_body dt w ++ "+00:00"

/-- chrono `%H:%M:%S` plus optional fraction. -/
def render_hms (tp : TimeParts) (w : Option Nat) : String :=
  nat_pad 2 tp.hour ++ ":" ++ nat_pad 2 tp.minute ++ ":" ++ nat_pad 2 tp.second ++
    frac_str w tp.nano

/-- Rust `as u32` on a signed integer: reduction modulo 2^32. -/
def u32_cast (n : Int) : Nat := (n % 4294967296).toNat

/-- duckdb::types::TimeUnit. -/
inductive TimeUnit where
  | Second
  | Millisecond
  | Microsecond
  | Nanosecond
deriving DecidableEq

/-! ## src/utils.rs -/

/-- utils.rs `date32_to_ymd`: `epoch + Duration::days(date32)` formatted
`%Y-%m-%d`. chrono's `NaiveDate + Duration` panics when the sum leaves the
representable date range; the panic is modelled as `none`. -/
def date32_to_ymd (date32 : Int) : Option String :=
  if chrono_min_days ≤ date32 ∧ date32 ≤ chrono_max_days then
    let ymd := civil_from_days date32
    some (render_date ymd.1 ymd.2.1.toNat ymd.2.2.toNat)
  else none

/-- utils.rs `timeunit_to_ymd_hms`: per unit, the Rust i64 value is split with
truncating division/remainder, the remainder scaled to nanoseconds and cast
`as u32`, then `DateTime::from_timestamp` is formatted with
`%Y-%m-%dT%H:%M:%S[.%3f|%6f|%9f]%:z`; a `None` datetime renders the
`"Invalid Time"` sentinel. -/
def timeunit_to_ymd_hms (unit : TimeUnit) (t : Int) : String :=
  match unit with
  | .Second =>
    match chrono_from_timestamp t 0 with
    | some dt => render_ymd_hms dt none
    | none => "Invalid Time"
  | .Millisecond =>
    match chrono_from_timestamp (Int.tdiv t 1000) (u32_cast (Int.tmod t 1000 * 1000000)) with
    | some dt => render_ymd_hms dt (some 3)
    | none => "Invalid Time"
  | .Microsecond =>
    match chrono_from_timestamp (Int.tdiv t 1000000) (u32_cast (Int.tmod t 1000000 * 1000)) with
    | some dt => render_ymd_hms dt (some 6)
    | none => "Invalid Time"
  | .Nanosecond =>
    match chrono_from_timestamp (Int.tdiv t 1000000000) (u32_cast (Int.tmod t 1000000000)) with
    | some dt => render_ymd_hms dt (some 9)
    | none => "Invalid Time"

/-- utils.rs `timeunit_to_hms`: like `timeunit_to_ymd_hms` but through
`NaiveTime::from_num_seconds_from_midnight_opt` (both the seconds and the
nanoseconds arguments cast `as u32`), formatted `%H:%M:%S[.%3f|%6f|%9f]`. -/
def timeunit_to_hms (unit : TimeUnit) (t : Int) : String :=
  match unit with
  | .Second =>
    match chrono_time_from (u32_cast t) 0 with
    | some tp => render_hms tp none
    | none => "Invalid Time"
  | .Millisecond =>
    match chrono_time_from (u32_cast (Int.tdiv t 1000)) (u32_cast (Int.tmod t 1000 * 1000000)) with
    | some tp => render_hms tp (some 3)
    | none => "Invalid Time"
  | .Microsecond =>
    match chrono_time_from (u32_cast (Int.tdiv t 1000000)) (u32_cast (Int.tmod t 1000000 * 1000)) with
    | some tp => render_hms tp (some 6)
    | none => "Invalid Time"
  | .Nanosecond =>
    match chrono_time_from (u32_cast (Int.tdiv t 1000000000)) (u32_cast (Int.tmod t 1000000000)) with
    | some tp => render_hms tp (some 9)
    | none => "Invalid Time"

/-- Characters after the last dot, `none` when the string has no dot
(the piece produced by Rust `filename.rsplit('.').next()`, minus the
no-dot case in which Rust yields the whole string). -/
def after_last_dot : List Char → Option (List Char)
  | [] => none
  | c :: cs =>
    match after_last_dot cs with
    | some suf => some suf
    | none => if c = '.' then some cs else none

/-- Rust `str::to_lowercase` restricted to its effect on ASCII
(the per-character simple lowercase mapping). -/
def lower_str (s : String) : String := String.mk (s.data.map Char.toLower)

/-- utils.rs `get_file_extension`: the piece after the last `.` of the path,
lower-cased; empty when the path has no dot (then `ext == filename`) or ends
with a dot (then `filename.ends_with('.')`), which are exactly the guarded
cases of the Rust source. -/
def get_file_extension (filename : String) : String :=
  match after_last_dot filename.data with
  | none => ""
  | some [] => ""
  | some suf => lower_str (String.mk suf)

/-- Characters before the first `(`, i.e. Rust `s.split('(').next()` (which
always yields the first piece, so the `unwrap_or("")` never fires). -/
def up_to_paren : List Char → List Char
  | [] => []
  | c :: cs => if c = '(' then [] else c :: up_to_paren cs

/-- Rust `str::trim`: whitespace stripped from both ends. -/
def trim_chars (l : List Char) : List Char :=
  ((l.dropWhile Char.isWhitespace).reverse.dropWhile Char.isWhitespace).reverse

/-- loader.rs column-type cleanup (lines 138-145):
`column_type.to_string().split('(').next().unwrap_or("").trim()`. -/
def clean_type (s : String) : String :=
  String.mk (trim_chars (up_to_paren s.data))

/-! ## The value formatter (loader.rs, the big match in the drain loop) -/

/-- duckdb::types::Value. Payloads that the formatter merely re-renders via
their own `Display`/`Debug` implementation (Float, Double, Decimal and the
nested List/Struct/Array/Map/Union debug dumps) are carried as the rendered
text itself; all payloads the formatter computes on are carried exactly. -/
inductive Value where
  | Null
  | Boolean (b : Bool)
  | TinyInt (n : Int)
  | SmallInt (n : Int)
  | Int32 (n : Int)
  | BigInt (n : Int)
  | HugeInt (n : Int)
  | UTinyInt (n : Nat)
  | USmallInt (n : Nat)
  | UInt (n : Nat)
  | UBigInt (n : Nat)
  | Float (shown : String)
  | Double (shown : String)
  | Decimal (shown : String)
  | Text (s : String)
  | Blob (bytes : List Nat)
  | Date32 (days : Int)
  | Timestamp (unit : TimeUnit) (t : Int)
  | Time64 (unit : TimeUnit) (t : Int)
  | Interval (months days nanos : Int)
  | List (dump : String)
  | Enum (s : String)
  | Struct (dump : String)
  | Array (dump : String)
  | Map (dump : String)
  | Union (dump : String)
deriving DecidableEq

/-- A cell as produced by `row.get(i)`: a value or a read error. -/
abbrev CellResult := Except String Value

def base64_alphabet : List Char :=
  "ABCDEFGHIJKLMNOPQRSTUVWXYZabcdefghijklmnopqrstuvwxyz0123456789+/".data

def b64c (n : Nat) : Char := base64_alphabet.getD n '='

/-- RFC 4648 standard base64 of a byte sequence (the `STANDARD` engine). -/
def base64_chunks : List Nat → List Char
  | [] => []
  | [a] => [b64c (a / 4), b64c (a % 4 * 16), '=', '=']
  | [a, b] => [b64c (a / 4), b64c (a % 4 * 16 + b / 16), b64c (b % 16 * 4), '=']
  | a :: b :: c :: rest =>
    b64c (a / 4) :: b64c (a % 4 * 16 + b / 16) :: b64c (b % 16 * 4 + c / 64) ::
      b64c (c % 64) :: base64_chunks rest

def base64_encode (bytes : List Nat) : String := String.mk (base64_chunks bytes)

/-- loader.rs Blob branch: base64, truncated to 25 characters plus `"..."`
when longer (base64 output is ASCII, so Rust's byte slice `[..25]` is the
first 25 characters). -/
def blob_display (bytes : List Nat) : String :=
  let s := base64_encode bytes
  if s.length > 25 then String.mk (s.data.take 25) ++ "..." else s

/-- loader.rs composite branches: `format!("{:#?}", v).replace("\n", "").replace(" ", "")`.
Both replacements delete a single ASCII character, so together they filter
newlines and spaces out of the dump. -/
def strip_nl_sp (s : String) : String :=
  String.mk (s.data.filter (fun c => !(c == '\n' || c == ' ')))

/-- The cell-to-string match of loader.rs `fetch_data` (lines 162-207).
`none` models a Rust panic (reachable only through `date32_to_ymd`). -/
def format_value : CellResult → Option String
  | .ok .Null => some "NULL"
  | .ok (.Boolean b) => some (toString b)
  | .ok (.TinyInt n) => some (toString n)
  | .ok (.SmallInt n) => some (toString n)
  | .ok (.Int32 n) => some (toString n)
  | .ok (.BigInt n) => some (toString n)
  | .ok (.HugeInt n) => some (toString n)
  | .ok (.UTinyInt n) => some (toString n)
  | .ok (.USmallInt n) => some (toString n)
  | .ok (.UInt n) => some (toString n)
  | .ok (.UBigInt n) => some (toString n)
  | .ok (.Float shown) => some shown
  | .ok (.Double shown) => some shown
  | .ok (.Decimal shown) => some shown
  | .ok (.Text s) => some s
  | .ok (.Blob bytes) => some (blob_display bytes)
  | .ok (.Date32 days) => date32_to_ymd days
  | .ok (.Timestamp unit t) => some (timeunit_to_ymd_hms unit t)
  | .ok (.Time64 unit t) => some (timeunit_to_hms unit t)
  | .ok (.Interval _ _ _) => some "Interval"
  | .ok (.List dump) => some (strip_nl_sp dump)
  | .ok (.Enum s) => some s
  | .ok (.Struct dump) => some (strip_nl_sp dump)
  | .ok (.Array dump) => some (strip_nl_sp dump)
  | .ok (.Map dump) => some (strip_nl_sp dump)
  | .ok (.Union dump) => some (strip_nl_sp dump)
  | .error e => some ("Error: " ++ e)

/-! ## The query builder (loader.rs lines 67-101) -/

/-- loader.rs sort direction match: 1 is `ASC`, 2 is `DESC`, anything else empty. -/
def sort_direction_of (sort_order : Int) : String :=
  if sort_order = 1 then "ASC" else if sort_order = 2 then "DESC" else ""

/-- loader.rs extension dispatch: `parquet`/`csv` pick the scan function,
anything else is unsupported (`none`). -/
def scan_function_of (filename : String) : Option String :=
  if get_file_extension filename = "parquet" then some "parquet_scan"
  else if get_file_extension filename = "csv" then some "read_csv_auto"
  else none

/-- Statement A (page data), built exactly as loader.rs builds `query`:
base select, `ORDER BY` pushed only for a positive sort index, then
`LIMIT`/`OFFSET`. The file path is interpolated verbatim. -/
def statement_a (scan_function filename : String) (page_number page_size sort_index sort_order : Int) : String :=
  (if sort_index > 0 then
    "SELECT * FROM " ++ scan_function ++ "('" ++ filename ++ "')" ++
      " ORDER BY " ++ toString sort_index ++ " " ++ sort_direction_of sort_order
   else
    "SELECT * FROM " ++ scan_function ++ "('" ++ filename ++ "')") ++
    " LIMIT " ++ toString page_size ++ " OFFSET " ++ toString ((page_number - 1) * page_size)

/-- Statement B (schema sample), loader.rs `query2`. -/
def statement_b (scan_function filename : String) : String :=
  "SELECT * FROM " ++ scan_function ++ "('" ++ filename ++ "') LIMIT 1"

/-- Statement C (row count), loader.rs `query3`. -/
def statement_c (scan_function filename : String) : String :=
  "SELECT count(1) count FROM " ++ scan_function ++ "('" ++ filename ++ "')"

/-! ## The engine session model and loader.rs `fetch_data` -/

/-- The rows produced by executing a prepared statement: a list of rows the
iterator yields, then either clean exhaustion or an iteration error
(`rows.next()` returning `Err`). Each row is the list of its cells. -/
structure RowStream where
  rows : List (List CellResult)
  iterError : Bool

/-- A prepared statement, as `fetch_data` observes one: post-execution column
count, per-index column name (`none` models `column_name` failing) and type
text, and the result of `query([])` (`none` models execution failure). -/
structure Stmt where
  columnCount : Nat
  columnName : Nat → Option String
  columnType : Nat → String
  run : Option RowStream

/-- One in-memory engine session: whether it opens, and what `prepare`
yields for each statement text (`none` models preparation failure). -/
structure Db where
  connOk : Bool
  prepare : String → Option Stmt

/-- Session events of one `fetch_data` call, in the order the source
performs them. `timerStart`/`timerStop` are the two `Instant` observations
delimiting the reported duration. -/
inductive Ev where
  | openConn
  | timerStart
  | prepareA
  | prepareB
  | execA
  | execB
  | readMeta
  | drain
  | timerStop
  | prepareC
  | execC
deriving DecidableEq, BEq

/-- model.rs `QueryResult` (the duration is represented by the trace markers,
and a Slint `TableColumn` by its rendered title). -/
structure QueryResult where
  column_names : List String
  rows : List (List String)
  row_count : Int
deriving DecidableEq

deriving instance DecidableEq for Except

/-- Result of a call: a Rust return value plus the event trace, or a process
abort (panic). -/
inductive Outcome where
  | aborted (trace : List Ev)
  | ret (result : Except String QueryResult) (trace : List Ev)
deriving DecidableEq

/-- `row.get(i)`: the cell at `i`, an engine error for an out-of-range index. -/
def get_cell (r : List CellResult) (i : Nat) : CellResult :=
  r.getD i (.error ("Invalid column index: " ++ toString i))

/-- The metadata loop of loader.rs (lines 130-153) over the listed indices:
each column renders as `"name\n(type)"` where the type text is cut at the
first `(` and trimmed; a failing `column_name` aborts with its context error. -/
def read_columns_from (st : Stmt) : List Nat → Except String (List String)
  | [] => .ok []
  | i :: is =>
    match st.columnName i with
    | none => .error ("Failed to get the column name at index '" ++ toString i ++ "'")
    | some nm =>
      match read_columns_from st is with
      | .error e => .error e
      | .ok rest => .ok ((nm ++ "\n(" ++ clean_type (st.columnType i) ++ ")") :: rest)

def read_columns (st : Stmt) : Except String (List String) :=
  read_columns_from st (List.range st.columnCount)

/-- One row of the drain loop: cells `0..column_count` each formatted;
`none` models a formatter panic. -/
def cells_loop (r : List CellResult) : List Nat → Option (List String)
  | [] => some []
  | i :: is =>
    match format_value (get_cell r i) with
    | none => none
    | some s =>
      match cells_loop r is with
      | none => none
      | some rest => some (s :: rest)

def rows_loop (n : Nat) : List (List CellResult) → Option (List (List String))
  | [] => some []
  | r :: rs =>
    match cells_loop r (List.range n) with
    | none => none
    | some cs =>
      match rows_loop n rs with
      | none => none
      | some rest => some (cs :: rest)

/-- The `while let Some(row) = rows.next()?` drain loop (lines 158-211):
rows formatted in order; after the yielded rows an iteration error surfaces
as the `"Failed to get row"` context error. `none` models a panic. -/
def drain_rows (s : RowStream) (n : Nat) : Option (Except String (List (List String))) :=
  match rows_loop n s.rows with
  | none => none
  | some rl => some (if s.iterError then .error "Failed to get row" else .ok rl)

/-- duckdb `row.get::<_, i32>(0)` for the count query: integral values fitting
an `i32` convert, everything else is a column error. -/
def int_from_count : CellResult → Except String Int
  | .error e => .error e
  | .ok (.TinyInt n) => .ok n
  | .ok (.SmallInt n) => .ok n
  | .ok (.Int32 n) => .ok n
  | .ok (.BigInt n) =>
    if -2147483648 ≤ n ∧ n ≤ 2147483647 then .ok n
    else .error "Out of range integral type conversion attempted"
  | .ok (.HugeInt n) =>
    if -2147483648 ≤ n ∧ n ≤ 2147483647 then .ok n
    else .error "Out of range integral type conversion attempted"
  | .ok (.UTinyInt n) => .ok n
  | .ok (.USmallInt n) => .ok n
  | .ok (.UInt n) =>
    if n ≤ 2147483647 then .ok n
    else .error "Out of range integral type conversion attempted"
  | .ok (.UBigInt n) =>
    if n ≤ 2147483647 then .ok n
    else .error "Out of range integral type conversion attempted"
  | .ok _ => .error "Invalid column type"

/-- The count read of loader.rs (lines 224-232): first row's column 0 when a
row comes back, `-1` when the iterator is immediately exhausted, context
errors otherwise. -/
def read_count (s : RowStream) : Except String Int :=
  match s.rows with
  | [] => if s.iterError then .error "Failed to get row" else .ok (-1)
  | r :: _ =>
    match int_from_count (get_cell r 0) with
    | .error _ => .error "Failed to get row count"
    | .ok n => .ok n

/-- loader.rs `fetch_data`, step for step: page guard, session open, extension
dispatch, the three statement texts, timer start, prepare A, prepare B,
execute A, execute B, metadata from B, drain A, timer stop, prepare C,
execute C, count read. Every return carries the event trace accumulated up to
that point. -/
def fetch_data (db : Db) (filename : String) (page_number page_size sort_index sort_order : Int) : Outcome :=
  if page_number < 1 then
    .ret (.error "Page number must be greater than 0") []
  else if db.connOk = true then
    match scan_function_of filename with
    | none => .ret (.error "Unsupported or unknown file type") [.openConn]
    | some scan_function =>
      match db.prepare (statement_a scan_function filename page_number page_size sort_index sort_order) with
      | none =>
        .ret (.error ("Failed to create context with '" ++ filename ++ "'"))
          [.openConn, .timerStart, .prepareA]
      | some stmt =>
        match db.prepare (statement_b scan_function filename) with
        | none =>
          .ret (.error ("Failed to create metadata context with '" ++ filename ++ "'"))
            [.openConn, .timerStart, .prepareA, .prepareB]
        | some stmt2 =>
          match stmt.run with
          | none =>
            .ret (.error "Failed to execute query")
              [.openConn, .timerStart, .prepareA, .prepareB, .execA]
          | some rowsA =>
            match stmt2.run with
            | none =>
              .ret (.error "Failed to execute metadata query")
                [.openConn, .timerStart, .prepareA, .prepareB, .execA, .execB]
            | some _ =>
              match read_columns stmt2 with
              | .error e =>
                .ret (.error e)
                  [.openConn, .timerStart, .prepareA, .prepareB, .execA, .execB, .readMeta]
              | .ok column_names =>
                match drain_rows rowsA stmt2.columnCount with
                | none =>
                  .aborted
                    [.openConn, .timerStart, .prepareA, .prepareB, .execA, .execB, .readMeta, .drain]
                | some (.error e) =>
                  .ret (.error e)
                    [.openConn, .timerStart, .prepareA, .prepareB, .execA, .execB, .readMeta, .drain]
                | some (.ok row_list) =>
                  match db.prepare (statement_c scan_function filename) with
                  | none =>
                    .ret (.error ("Failed to create rowcount context with '" ++ filename ++ "'"))
                      [.openConn, .timerStart, .prepareA, .prepareB, .execA, .execB, .readMeta,
                        .drain, .timerStop, .prepareC]
                  | some stmt3 =>
                    match stmt3.run with
                    | none =>
                      .ret (.error "Failed to execute query")
                        [.openConn, .timerStart, .prepareA, .prepareB, .execA, .execB, .readMeta,
                          .drain, .timerStop, .prepareC, .execC]
                    | some rowsC =>
                      match read_count rowsC with
                      | .error e =>
                        .ret (.error e)
                          [.openConn, .timerStart, .prepareA, .prepareB, .execA, .execB, .readMeta,
                            .drain, .timerStop, .prepareC, .execC]
                      | .ok row_count =>
                        .ret (.ok ⟨column_names, row_list, row_count⟩)
                          [.openConn, .timerStart, .prepareA, .prepareB, .execA, .execB, .readMeta,
                            .drain, .timerStop, .prepareC, .execC]
  else
    .ret (.error "Failed to set up duckdb connection") [.openConn]

/-- loader.rs `update_table_async`: forwards the parameters to `fetch_data`;
on success the UI is updated and `Ok(())` returned, on failure the error is
replaced wholesale by `"Error reading file '<path>'"`. A formatter panic
propagates (`none`). -/
def update_table_async (db : Db) (filename : String) (page_number page_size sort_index sort_order : Int) : Option (Except String Unit) :=
  match fetch_data db filename page_number page_size sort_index sort_order with
  | .aborted _ => none
  | .ret (.ok _) _ => some (.ok ())
  | .ret (.error _) _ => some (.error ("Error reading file '" ++ filename ++ "'"))

/-- loader.rs `update_table_ui` line 348: `set_max_pages((row_count / page_size) + 1)`
with Rust `i32` division (truncation toward zero). -/
def max_pages (row_count page_size : Int) : Int :=
  Int.tdiv row_count page_size + 1

/-! ## Uniform characterization of the per-unit time formatting -/

/-- Ticks per second of each unit. -/
def unit_scale : TimeUnit → Nat
  | .Second => 1
  | .Millisecond => 1000
  | .Microsecond => 1000000
  | .Nanosecond => 1000000000

/-- Nanoseconds per tick of each unit. -/
def unit_nano_mult : TimeUnit → Nat
  | .Second => 1000000000
  | .Millisecond => 1000000
  | .Microsecond => 1000
  | .Nanosecond => 1

/-- Fraction width rendered for each unit: none for seconds, 3/6/9 digits
for milli/micro/nanoseconds. -/
def frac_width : TimeUnit → Option Nat
  | .Second => none
  | .Millisecond => some 3
  | .Microsecond => some 6
  | .Nanosecond => some 9

/-- The whole-seconds part of a unit split (Rust truncating division). -/
def whole_seconds (unit : TimeUnit) (t : Int) : Int :=
  Int.tdiv t (unit_scale unit)

/-- The sub-second remainder of a unit split, scaled to nanoseconds and cast
`as u32`, exactly as the source computes it. -/
def subsecond_nanos (unit : TimeUnit) (t : Int) : Nat :=
  u32_cast (Int.tmod t (unit_scale unit) * unit_nano_mult unit)

/-- The event trace of every successful `fetch_data` call. -/
def success_trace : List Ev :=
  [.openConn, .timerStart, .prepareA, .prepareB, .execA, .execB, .readMeta, .drain,
    .timerStop, .prepareC, .execC]

/-! ## Concrete engine sessions used to exercise the model -/

/-- A session whose every statement yields two columns and two rows. -/
def stmt_ok : Stmt where
  columnCount := 2
  columnName := fun i => if i = 0 then some "id" else if i = 1 then some "name" else none
  columnType := fun i => if i = 0 then "Int32" else "Utf8"
  run := some ⟨[[.ok (.Int32 1), .ok (.Text "a")], [.ok (.Int32 2), .ok (.Text "b")]], false⟩

def db_ok : Db where
  connOk := true
  prepare := fun _ => some stmt_ok

/-- A session whose every statement yields no columns and no rows (so the
count query returns no row at all). -/
def stmt_empty : Stmt where
  columnCount := 0
  columnName := fun _ => none
  columnType := fun _ => ""
  run := some ⟨[], false⟩

def db_empty : Db where
  connOk := true
  prepare := fun _ => some stmt_empty

/-! ## Helper lemmas -/

theorem read_columns_from_length (st : Stmt) :
    ∀ l cols, read_columns_from st l = .ok cols → cols.length = l.length := by
  intro l
  induction l with
  | nil =>
    intro cols h
    simp only [read_columns_from] at h
    injection h with h
    subst h
    rfl
  | cons i is ih =>
    intro cols h
    simp only [read_columns_from] at h
    split at h
    · simp at h
    · split at h
      · simp at h
      · rename_i rest hrest
        injection h with h
        subst h
        simpa using ih rest hrest

theorem read_columns_length (st : Stmt) (cols : List String)
    (h : read_columns st = .ok cols) : cols.length = st.columnCount := by
  simpa using read_columns_from_length st (List.range st.columnCount) cols h

theorem cells_loop_length (r : List CellResult) :
    ∀ l cs, cells_loop r l = some cs → cs.length = l.length := by
  intro l
  induction l with
  | nil =>
    intro cs h
    simp only [cells_loop] at h
    injection h with h
    subst h
    rfl
  | cons i is ih =>
    intro cs h
    simp only [cells_loop] at h
    split at h
    · simp at h
    · split at h
      · simp at h
      · rename_i rest hrest
        injection h with h
        subst h
        simpa using ih rest hrest

theorem rows_loop_length (n : Nat) :
    ∀ rs rl, rows_loop n rs = some rl → ∀ row ∈ rl, row.length = n := by
  intro rs
  induction rs with
  | nil =>
    intro rl h row hrow
    simp only [rows_loop] at h
    injection h with h
    subst h
    simp at hrow
  | cons r rs ih =>
    intro rl h row hrow
    simp only [rows_loop] at h
    split at h
    · simp at h
    · rename_i cs hcs
      split at h
      · simp at h
      · rename_i rest hrest
        injection h with h
        subst h
        rcases List.mem_cons.mp hrow with rfl | hrow
        · simpa using cells_loop_length r (List.range n) row hcs
        · exact ih rest hrest row hrow

theorem drain_rows_rows_loop {s : RowStream} {n : Nat} {rl : List (List String)}
    (h : drain_rows s n = some (.ok rl)) : rows_loop n s.rows = some rl := by
  unfold drain_rows at h
  split at h
  · simp at h
  · rename_i rl2 hrl2
    injection h with h
    split at h
    · simp at h
    · injection h with h
      subst h
      exact hrl2

theorem chrono_from_timestamp_high_nanos (secs : Int) (nsecs : Nat)
    (h : 2000000000 ≤ nsecs) : chrono_from_timestamp secs nsecs = none := by
  unfold chrono_from_timestamp
  rw [if_pos h]

theorem chrono_from_timestamp_out_of_range (secs : Int) (nsecs : Nat)
    (h : ¬(chrono_min_days ≤ Int.fdiv secs 86400 ∧ Int.fdiv secs 86400 ≤ chrono_max_days)) :
    chrono_from_timestamp secs nsecs = none := by
  by_cases hn : 2000000000 ≤ nsecs
  · exact chrono_from_timestamp_high_nanos secs nsecs hn
  · unfold chrono_from_timestamp
    rw [if_neg hn]
    simp only []
    rw [if_neg h]

theorem chrono_time_from_none (secs nano : Nat)
    (h : ¬(secs < 86400 ∧ nano < 2000000000)) : chrono_time_from secs nano = none := by
  unfold chrono_time_from
  rw [if_neg h]

/-- Inversion of a successful `fetch_data` run: the oracle answered every
stage, the result components come from the three statements, and the trace
is the canonical success trace. -/
theorem fetch_success_inversion (db : Db) (f : String) (pn ps si so : Int)
    (res : QueryResult) (tr : List Ev)
    (h : fetch_data db f pn ps si so = .ret (.ok res) tr) :
    ∃ sf stmt stmt2 stmt3 rowsA rowsC,
      scan_function_of f = some sf ∧
      db.prepare (statement_a sf f pn ps si so) = some stmt ∧
      db.prepare (statement_b sf f) = some stmt2 ∧
      db.prepare (statement_c sf f) = some stmt3 ∧
      stmt.run = some rowsA ∧
      stmt3.run = some rowsC ∧
      read_columns stmt2 = .ok res.column_names ∧
      drain_rows rowsA stmt2.columnCount = some (.ok res.rows) ∧
      read_count rowsC = .ok res.row_count ∧
      tr = success_trace := by
  unfold fetch_data at h
  repeat any_goals split at h
  all_goals simp_all [success_trace]
  obtain ⟨h1, h2⟩ := h
  subst h1
  exact ⟨rfl, rfl, rfl⟩

/-! ## Claims -/

/-- Claim C1: contrary to the required hardening, no quote escaping exists in
the builder: all three statements interpolate the file path verbatim into the
quoted literal, so a path containing a single quote (here `a'b.parquet`)
produces a corrupted quoted literal with the quote not doubled. -/
theorem c1_quotes_not_escaped :
    statement_a "parquet_scan" "a'b.parquet" 1 10 (-1) 0 =
      "SELECT * FROM parquet_scan('a'b.parquet') LIMIT 10 OFFSET 0" ∧
    statement_b "parquet_scan" "a'b.parquet" =
      "SELECT * FROM parquet_scan('a'b.parquet') LIMIT 1" ∧
    statement_c "parquet_scan" "a'b.parquet" =
      "SELECT count(1) count FROM parquet_scan('a'b.parquet')" ∧
    scan_function_of "a'b.parquet" = some "parquet_scan" :=
  ⟨by decide, by decide, by decide, by decide⟩

/-- Claim C2 is false as stated: in a concrete successful run the page-data
statement (A) is executed strictly before the schema-sample statement (B),
and the timer starts before statement A is even prepared, so the timed
interval is not only statement A's execute-and-drain phase. -/
theorem c2_counterexample :
    fetch_data db_ok "t.parquet" 1 10 (-1) 0 =
      .ret (.ok ⟨["id\n(Int32)", "name\n(Utf8)"], [["1", "a"], ["2", "b"]], 1⟩) success_trace ∧
    success_trace.indexOf .execA < success_trace.indexOf .execB ∧
    success_trace.indexOf .timerStart < success_trace.indexOf .prepareA :=
  ⟨by decide, by decide, by decide⟩

/-- Claim C2 (amended): each call opens exactly one fresh in-memory session;
on a successful run the event order is open, timer start, prepare A,
prepare B, execute A, execute B, metadata read from B, drain of A, timer
stop, prepare C, execute C — so statement A is executed before statement B,
the count statement runs last, and the timed interval additionally spans both
preparations, statement B's execution and the metadata collection (but not
the count statement); if the count query returns no row, the row count
defaults to -1. -/
theorem c2_execution_protocol :
    (∀ db f pn ps si so res tr, fetch_data db f pn ps si so = .ret (.ok res) tr →
      tr = success_trace ∧ tr.count .openConn = 1 ∧
      tr.indexOf .timerStart < tr.indexOf .prepareA ∧
      tr.indexOf .execA < tr.indexOf .execB ∧
      tr.indexOf .readMeta < tr.indexOf .timerStop ∧
      tr.indexOf .timerStop < tr.indexOf .prepareC) ∧
    (∀ db f pn ps si so res tr sf stmt3,
      fetch_data db f pn ps si so = .ret (.ok res) tr →
      scan_function_of f = some sf →
      db.prepare (statement_c sf f) = some stmt3 →
      stmt3.run = some ⟨[], false⟩ →
      res.row_count = -1) := by
  constructor
  · intro db f pn ps si so res tr h
    obtain ⟨sf, stmt, stmt2, stmt3, rowsA, rowsC, _, _, _, _, _, _, _, _, _, htr⟩ :=
      fetch_success_inversion db f pn ps si so res tr h
    subst htr
    exact ⟨rfl, by decide, by decide, by decide, by decide, by decide⟩
  · intro db f pn ps si so res tr sf stmt3 h hsf hprep hrun
    obtain ⟨sf2, stmt, stmt2, stmt3b, rowsA, rowsC, hsf2, h1, h2, hprep2, h4, hrun2, h5, h6, hcount, h7⟩ :=
      fetch_success_inversion db f pn ps si so res tr h
    rw [hsf] at hsf2
    injection hsf2 with e
    subst e
    rw [hprep2] at hprep
    injection hprep with e2
    subst e2
    rw [hrun] at hrun2
    injection hrun2 with e3
    rw [← e3] at hcount
    have hm1 : read_count (⟨[], false⟩ : RowStream) = .ok (-1) := rfl
    rw [hm1] at hcount
    injection hcount with e4
    exact e4.symm

/-- Witness for the amended C2: a concrete run whose page-data statement is
executed before the schema-sample statement, and whose count query yields no
row, so the reported row count is the default -1. -/
theorem c2_execution_protocol_witness :
    success_trace.indexOf Ev.execA < success_trace.indexOf Ev.execB ∧
    (QueryResult.mk [] [] (-1)).row_count = -1 :=
  ⟨(c2_execution_protocol.1 db_empty "t.parquet" 1 10 (-1) 0 ⟨[], [], -1⟩ success_trace
      (by decide)).2.2.2.1,
   c2_execution_protocol.2 db_empty "t.parquet" 1 10 (-1) 0 ⟨[], [], -1⟩ success_trace
      "parquet_scan" stmt_empty (by decide) (by decide) rfl rfl⟩

/-- Claim C3: for pageNumber < 1 the fetch fails at once with the
invalid-page error, with an empty event trace — no session opened, nothing
prepared or executed, and no result value produced. -/
theorem c3_invalid_page (db : Db) (f : String) (pn ps si so : Int) (h : pn < 1) :
    fetch_data db f pn ps si so = .ret (.error "Page number must be greater than 0") [] := by
  unfold fetch_data
  rw [if_pos h]

/-- Witness for C3 at page number 0. -/
theorem c3_invalid_page_witness :
    fetch_data db_ok "t.parquet" 0 10 (-1) 1 =
      .ret (.error "Page number must be greater than 0") [] :=
  c3_invalid_page db_ok "t.parquet" 0 10 (-1) 1 (by decide)

/-- Claim C4: the page-data statement is the base select, followed by the
ORDER BY clause exactly when the sort index is positive (direction rendered
ASC for 1, DESC for 2, nothing otherwise), followed by LIMIT pageSize and
OFFSET (pageNumber-1)*pageSize; a nonpositive sort index emits no ORDER BY
clause regardless of direction. -/
theorem c4_statement_a_shape :
    (∀ sf f pn ps si so,
      statement_a sf f pn ps si so =
        (if 0 < si then
          "SELECT * FROM " ++ sf ++ "('" ++ f ++ "')" ++ " ORDER BY " ++ toString si ++ " " ++
            (if so = 1 then "ASC" else if so = 2 then "DESC" else "")
         else "SELECT * FROM " ++ sf ++ "('" ++ f ++ "')") ++
        " LIMIT " ++ toString ps ++ " OFFSET " ++ toString ((pn - 1) * ps)) ∧
    (∀ sf f pn ps si so, si ≤ 0 →
      statement_a sf f pn ps si so =
        "SELECT * FROM " ++ sf ++ "('" ++ f ++ "')" ++ " LIMIT " ++ toString ps ++ " OFFSET " ++
          toString ((pn - 1) * ps)) ∧
    sort_direction_of 1 = "ASC" ∧ sort_direction_of 2 = "DESC" ∧
    sort_direction_of 0 = "" ∧ sort_direction_of 3 = "" := by
  refine ⟨fun sf f pn ps si so => rfl, ?_, rfl, rfl, rfl, rfl⟩
  intro sf f pn ps si so h
  unfold statement_a
  rw [if_neg (by omega)]

/-- Witness for C4: no-sort request renders without an ORDER BY clause. -/
theorem c4_statement_a_shape_witness :
    statement_a "parquet_scan" "test.parquet" 2 5 (-1) 2 =
      "SELECT * FROM parquet_scan('test.parquet') LIMIT 5 OFFSET 5" :=
  (c4_statement_a_shape.2.1 "parquet_scan" "test.parquet" 2 5 (-1) 2 (by decide)).trans (by decide)

/-- Claim C5: the scan function is chosen from the lower-cased extension of
the path (parquet → parquet_scan, csv → read_csv_auto, so `.parquet`/`.csv`
are accepted case-insensitively), and any other or absent extension fails
with the unsupported-file-type error right after the session opens, before
any statement is prepared or executed. -/
theorem c5_file_type_dispatch :
    (∀ f, scan_function_of f =
      (if get_file_extension f = "parquet" then some "parquet_scan"
       else if get_file_extension f = "csv" then some "read_csv_auto" else none)) ∧
    (∀ db f pn ps si so, 1 ≤ pn → db.connOk = true → scan_function_of f = none →
      fetch_data db f pn ps si so =
        .ret (.error "Unsupported or unknown file type") [.openConn]) ∧
    scan_function_of "data.PARQUET" = some "parquet_scan" ∧
    scan_function_of "data.parquet" = some "parquet_scan" ∧
    scan_function_of "data.CsV" = some "read_csv_auto" ∧
    scan_function_of "data.txt" = none ∧
    scan_function_of "no_extension" = none ∧
    scan_function_of "trailing." = none := by
  refine ⟨fun f => rfl, ?_, by decide, by decide, by decide, by decide, by decide, by decide⟩
  intro db f pn ps si so h1 h2 h3
  unfold fetch_data
  rw [if_neg (by omega), if_pos h2, h3]

/-- Witness for C5: an unsupported extension fails with only the session-open
event in the trace. -/
theorem c5_file_type_dispatch_witness :
    fetch_data db_ok "data.txt" 1 10 (-1) 0 =
      .ret (.error "Unsupported or unknown file type") [.openConn] :=
  c5_file_type_dispatch.2.1 db_ok "data.txt" 1 10 (-1) 0 (by decide) rfl (by decide)

/-- Claim C6: the formatter renders Null as "NULL" and read errors as
"Error: <message>", and handles the temporal examples — but it is not total:
the Date32 branch panics (modelled as `none`) for day offsets outside
chrono's representable date range, e.g. 2,000,000,000 days, a value DuckDB's
32-bit DATE column can deliver. -/
theorem c6_formatter_not_total :
    format_value (.ok (.Date32 2000000000)) = none ∧
    format_value (.ok .Null) = some "NULL" ∧
    (∀ e, format_value (.error e) = some ("Error: " ++ e)) ∧
    format_value (.ok (.Date32 19275)) = some "2022-10-10" ∧
    format_value (.ok (.Date32 0)) = some "1970-01-01" ∧
    format_value (.ok (.Date32 (-1))) = some "1969-12-31" :=
  ⟨by decide, rfl, fun e => rfl, by decide, by decide, by decide⟩

/-- Claim C7 is false as stated: not every out-of-range time-of-day value
renders the "Invalid Time" sentinel. The seconds value is cast `as u32` and
wraps modulo 2^32, so 4294967296000000 microseconds since midnight (2^32
whole seconds, far beyond a day) wraps to 0 and renders as an ordinary
midnight clock time, not the sentinel; likewise 2^32 whole seconds under the
second unit. -/
theorem c7_counterexample :
    timeunit_to_hms TimeUnit.Microsecond 4294967296000000 = "00:00:00.000000" ∧
    timeunit_to_hms TimeUnit.Second 4294967296 = "00:00:00" ∧
    (86400 : Int) ≤ Int.tdiv 4294967296000000 1000000 ∧
    timeunit_to_hms TimeUnit.Microsecond 4294967296000000 ≠ "Invalid Time" :=
  ⟨by decide, by decide, by decide, by decide⟩

/-- Claim C7 (amended): both time formatters split the integer into whole
seconds (truncating division by the unit scale) and a sub-second remainder
scaled to nanoseconds, render with fraction width 3/6/9 digits for
milli/micro/nanoseconds and none for seconds, against the fixed explicit
+00:00 offset, and never fail. Every out-of-range timestamp renders the
"Invalid Time" sentinel (its whole-seconds value reaches the datetime
constructor unwrapped, as does a sub-second remainder wrapped past the
nanosecond bound); but for time-of-day values both the whole seconds and the
scaled remainder are cast `as u32` and wrap modulo 2^32, so the sentinel is
rendered exactly when the wrapped values are rejected (wrapped seconds ≥
86400 or wrapped nanoseconds ≥ 2·10^9), and an out-of-range value whose
wrapped seconds land back below 86400 renders as an ordinary clock time
instead. -/
theorem c7_time_rendering :
    (∀ u t, timeunit_to_ymd_hms u t =
      (match chrono_from_timestamp (whole_seconds u t) (subsecond_nanos u t) with
       | some dt => render_ymd_hms dt (frac_width u)
       | none => "Invalid Time")) ∧
    (∀ u t, timeunit_to_hms u t =
      (match chrono_time_from (u32_cast (whole_seconds u t)) (subsecond_nanos u t) with
       | some tp => render_hms tp (frac_width u)
       | none => "Invalid Time")) ∧
    (∀ dt w, render_ymd_hms dt w = render_ymd_hms_body dt w ++ "+00:00") ∧
    frac_width .Second = none ∧ frac_width .Millisecond = some 3 ∧
    frac_width .Microsecond = some 6 ∧ frac_width .Nanosecond = some 9 ∧
    (∀ u t, ¬(chrono_min_days ≤ Int.fdiv (whole_seconds u t) 86400 ∧
              Int.fdiv (whole_seconds u t) 86400 ≤ chrono_max_days) →
      timeunit_to_ymd_hms u t = "Invalid Time") ∧
    (∀ u t, 2000000000 ≤ subsecond_nanos u t →
      timeunit_to_ymd_hms u t = "Invalid Time") ∧
    (∀ u t, 86400 ≤ u32_cast (whole_seconds u t) →
      timeunit_to_hms u t = "Invalid Time") ∧
    (∀ u t, 2000000000 ≤ subsecond_nanos u t →
      timeunit_to_hms u t = "Invalid Time") ∧
    timeunit_to_ymd_hms .Second 0 = "1970-01-01T00:00:00+00:00" ∧
    timeunit_to_ymd_hms .Millisecond 0 = "1970-01-01T00:00:00.000+00:00" ∧
    timeunit_to_ymd_hms .Microsecond 1614764661000000 = "2021-03-03T09:44:21.000000+00:00" ∧
    timeunit_to_ymd_hms .Nanosecond 1614764661000000000 = "2021-03-03T09:44:21.000000000+00:00" ∧
    timeunit_to_hms .Second 3661 = "01:01:01" ∧
    timeunit_to_hms .Millisecond 86399999 = "23:59:59.999" ∧
    timeunit_to_hms .Microsecond 86399999999 = "23:59:59.999999" ∧
    timeunit_to_hms .Nanosecond 86399999999999 = "23:59:59.999999999" ∧
    timeunit_to_hms .Second 4294967296 = "00:00:00" ∧
    timeunit_to_hms .Microsecond 4294967296000000 = "00:00:00.000000" := by
  have hymd : ∀ u t, timeunit_to_ymd_hms u t =
      (match chrono_from_timestamp (whole_seconds u t) (subsecond_nanos u t) with
       | some dt => render_ymd_hms dt (frac_width u)
       | none => "Invalid Time") := by
    intro u t
    cases u <;>
      simp [timeunit_to_ymd_hms, whole_seconds, subsecond_nanos, unit_scale, unit_nano_mult,
        frac_width, u32_cast, Int.zero_emod, Int.toNat_zero]
  have hhms : ∀ u t, timeunit_to_hms u t =
      (match chrono_time_from (u32_cast (whole_seconds u t)) (subsecond_nanos u t) with
       | some tp => render_hms tp (frac_width u)
       | none => "Invalid Time") := by
    intro u t
    cases u <;>
      simp [timeunit_to_hms, whole_seconds, subsecond_nanos, unit_scale, unit_nano_mult,
        frac_width, u32_cast, Int.zero_emod, Int.toNat_zero]
  refine ⟨hymd, hhms, fun dt w => rfl, rfl, rfl, rfl, rfl, ?_, ?_, ?_, ?_, by decide, by decide,
    by decide, by decide, by decide, by decide, by decide, by decide, by decide, by decide⟩
  · intro u t h
    rw [hymd u t, chrono_from_timestamp_out_of_range _ _ h]
  · intro u t h
    rw [hymd u t, chrono_from_timestamp_high_nanos _ _ h]
  · intro u t h
    rw [hhms u t, chrono_time_from_none _ _ (by omega)]
  · intro u t h
    rw [hhms u t, chrono_time_from_none _ _ (by omega)]

/-- Witness for the amended C7: each sentinel rule applied at a concrete
rejected input — a timestamp beyond the representable date range, a negative
fractional timestamp whose wrapped nanoseconds exceed the bound, a
time-of-day of exactly one day, and a negative fractional time-of-day. -/
theorem c7_time_rendering_witness :
    timeunit_to_ymd_hms TimeUnit.Second 100000000000000 = "Invalid Time" ∧
    timeunit_to_ymd_hms TimeUnit.Millisecond (-1) = "Invalid Time" ∧
    timeunit_to_hms TimeUnit.Second 86400 = "Invalid Time" ∧
    timeunit_to_hms TimeUnit.Millisecond (-1) = "Invalid Time" :=
  ⟨c7_time_rendering.2.2.2.2.2.2.2.1 TimeUnit.Second 100000000000000 (by decide),
   c7_time_rendering.2.2.2.2.2.2.2.2.1 TimeUnit.Millisecond (-1) (by decide),
   c7_time_rendering.2.2.2.2.2.2.2.2.2.1 TimeUnit.Second 86400 (by decide),
   c7_time_rendering.2.2.2.2.2.2.2.2.2.2.1 TimeUnit.Millisecond (-1) (by decide)⟩

/-- Claim C8: a successful fetch is rectangular — every returned row has
exactly as many cells as there are column descriptors, and the descriptors
are exactly as many as the schema-sample statement's column count. -/
theorem c8_rectangular (db : Db) (f : String) (pn ps si so : Int)
    (res : QueryResult) (tr : List Ev)
    (h : fetch_data db f pn ps si so = .ret (.ok res) tr) :
    (∀ row ∈ res.rows, row.length = res.column_names.length) ∧
    (∀ sf st2, scan_function_of f = some sf → db.prepare (statement_b sf f) = some st2 →
      res.column_names.length = st2.columnCount) := by
  obtain ⟨sf, stmt, stmt2, stmt3, rowsA, rowsC, hsf, h1, h2, h3, h4, h5, hcols, hdrain, h6, h7⟩ :=
    fetch_success_inversion db f pn ps si so res tr h
  have hlen : res.column_names.length = stmt2.columnCount := read_columns_length stmt2 _ hcols
  constructor
  · intro row hrow
    have hr := rows_loop_length stmt2.columnCount rowsA.rows res.rows
      (drain_rows_rows_loop hdrain) row hrow
    rw [hr, hlen]
  · intro sf2 st2 hsf2 hst2
    rw [hsf] at hsf2
    injection hsf2 with e
    subst e
    rw [h2] at hst2
    injection hst2 with e2
    subst e2
    exact hlen

/-- Witness for C8: the concrete two-column session yields descriptors whose
count matches the prepared statement's column count. -/
theorem c8_rectangular_witness :
    (["id\n(Int32)", "name\n(Utf8)"] : List String).length = stmt_ok.columnCount :=
  (c8_rectangular db_ok "t.parquet" 1 10 (-1) 0
      ⟨["id\n(Int32)", "name\n(Utf8)"], [["1", "a"], ["2", "b"]], 1⟩ success_trace (by decide)).2
    "parquet_scan" stmt_ok (by decide) rfl

/-- Claim C9 is false as stated: at the deliverable sentinel
totalRowCount = -1 the code's truncating division gives page count 1, whereas
the claimed floor-division formula gives 0. -/
theorem c9_counterexample : max_pages (-1) 10 ≠ Int.fdiv (-1) 10 + 1 := by decide

/-- Claim C9 (amended): the page count is (totalRowCount / pageSize) + 1 with
Rust i32 division, which truncates toward zero; this agrees with the claimed
floor-division formula for every nonnegative totalRowCount, and over-counts
by one page on exact division (20 rows at page size 10 give 3 pages). -/
theorem c9_page_count :
    (∀ rc ps : Int, max_pages rc ps = Int.tdiv rc ps + 1) ∧
    (∀ rc ps : Int, 0 ≤ rc → 0 ≤ ps → max_pages rc ps = Int.fdiv rc ps + 1) ∧
    max_pages 20 10 = 3 := by
  refine ⟨fun rc ps => rfl, ?_, by decide⟩
  intro rc ps h1 h2
  unfold max_pages
  rw [Int.fdiv_eq_tdiv h1 h2]

/-- Witness for the amended C9 at 20 rows, page size 10. -/
theorem c9_page_count_witness : max_pages 20 10 = Int.fdiv 20 10 + 1 :=
  c9_page_count.2.1 20 10 (by decide) (by decide)

/-- Claim C10: whatever the cause of a fetch_data failure, update_table_async
returns exactly the message "Error reading file '<path>'"; the underlying
error is discarded wholesale. -/
theorem c10_error_collapsed (db : Db) (f : String) (pn ps si so : Int)
    (e : String) (tr : List Ev)
    (h : fetch_data db f pn ps si so = .ret (.error e) tr) :
    update_table_async db f pn ps si so =
      some (.error ("Error reading file '" ++ f ++ "'")) := by
  unfold update_table_async
  rw [h]

/-- Witness for C10: an invalid-page failure surfaces as the file-tagged
message with the cause discarded. -/
theorem c10_error_collapsed_witness :
    update_table_async db_ok "t.parquet" 0 10 (-1) 1 =
      some (.error "Error reading file 't.parquet'") :=
  (c10_error_collapsed db_ok "t.parquet" 0 10 (-1) 1 "Page number must be greater than 0" []
    (by decide)).trans (by decide)

end Viewer
